import Mathlib

/-!
The sample game of gplay-flappy, `samples/src/main.cpp`.

A shallow embedding of the game logic of `main.cpp` (the `Bird`, `Pipe` and
`GplayFlappyBird` classes) and the properties of the per-frame update that
its description states.

Conventions of the embedding.

* `float` values are exact rationals (`ℚ`): the properties below are those of
  the arithmetic the code writes down, not of IEEE rounding of its results.
  Every `float` literal has its binary32 value; all of them are integers
  except `1.6f`, which is `13421773 / 2^23`.
* A scene node is reduced to the coordinates the game logic reads back:
  the bird's node to its `y` translation, a pipe's node to its `x` and `y`
  translation; an engine node flag `setEnabled` is a `Bool`.
* `std::list<Pipe*> _pipes` is a `List Pipe`, front first.
* `MATH_RANDOM_MINUS1_1()` is an engine macro; the value it yields when a
  pipe is created is an explicit argument `rnd` of every function that may
  create a pipe.
-/

/-! ## Game settings (`#define`s, lines 5-26) -/

/-- Setting `#define PIPE_SCROLL_SPEED 100` -/
def PIPE_SCROLL_SPEED : ℚ := 100

/-- Setting `#define PIPE_SPAWN_DELAY 1.6f`: the value of the `float` literal,
`13421773 / 2^23`, the binary32 number nearest to 1.6 (slightly above it). -/
def PIPE_SPAWN_DELAY : ℚ := 13421773 / 8388608

/-- Setting `#define GRAVITY -700.0f` -/
def GRAVITY : ℚ := -700

/-- Setting `#define JUMP_VELOCITY 245.0f` -/
def JUMP_VELOCITY : ℚ := 245

/-- Setting `#define GROUND_POS -182.0f` -/
def GROUND_POS : ℚ := -182

/-- Setting `#define PIPE_SCROLL_X_START 200.0f` -/
def PIPE_SCROLL_X_START : ℚ := 200

/-- Setting `#define PIPE_SCROLL_X_END -200.0f` -/
def PIPE_SCROLL_X_END : ℚ := -200

/-- Setting `#define PIPE_HOLE_RANDOM_Y_OFFSET 90.0f` -/
def PIPE_HOLE_RANDOM_Y_OFFSET : ℚ := 90

/-! ## Entities -/

/-- Source `GameEntity::E_ENTITY_TYPE` (lines 42-47). -/
inductive E_ENTITY_TYPE where
  | TYPE_NONE
  | TYPE_BIRD
  | TYPE_PIPE
  deriving DecidableEq, Repr

/-- The `Bird` entity (lines 75-164): its three data members, whether the
"fly" animation clip is playing, and the `y` translation of its node. -/
structure Bird where
  velocity : ℚ
  position : ℚ
  isAlive : Bool
  flying : Bool
  nodeY : ℚ
  deriving DecidableEq, Repr

namespace Bird

/-- Source `Bird::Bird()` followed by `create()` (lines 84-90, 136-163). -/
def new : Bird :=
  { velocity := 0, position := 0, isAlive := true, flying := true, nodeY := 0 }

/-- Source `Bird::restart` (lines 97-105). -/
def restart (b : Bird) : Bird :=
  { b with isAlive := true, flying := true, nodeY := 0, velocity := 0, position := 0 }

/-- Source `Bird::jump` (lines 107-111). -/
def jump (b : Bird) : Bird :=
  if b.isAlive then { b with velocity := JUMP_VELOCITY } else b

/-- Source `Bird::update` (lines 113-123). -/
def update (dt : ℚ) (b : Bird) : Bird :=
  let velocity := b.velocity + GRAVITY * dt
  let position := b.position + velocity * dt
  let position := if position < GROUND_POS then GROUND_POS else position
  { b with velocity := velocity, position := position, nodeY := position }

/-- Source `Bird::kill` (lines 125-132). -/
def kill (b : Bird) : Bird :=
  { b.jump with isAlive := false, flying := false }

end Bird

/-- The `Pipe` entity (lines 172-242), reduced to the translation of its
parent node. -/
structure Pipe where
  x : ℚ
  y : ℚ
  deriving DecidableEq, Repr

namespace Pipe

/-- Source `Pipe::Pipe()` / `Pipe::create` (lines 179-182, 204-241); `rnd` is the value
of `MATH_RANDOM_MINUS1_1()` at line 240. -/
def create (rnd : ℚ) : Pipe :=
  { x := PIPE_SCROLL_X_START, y := rnd * PIPE_HOLE_RANDOM_Y_OFFSET }

/-- Source `Pipe::update` (lines 192-195): `translateX(-PIPE_SCROLL_SPEED * dt)`. -/
def update (dt : ℚ) (p : Pipe) : Pipe :=
  { p with x := p.x + -PIPE_SCROLL_SPEED * dt }

/-- Source `Pipe::isOffScreen` (lines 197-200). -/
def isOffScreen (p : Pipe) : Bool :=
  decide (p.x < PIPE_SCROLL_X_END)

end Pipe

/-! ## The game -/

/-- Source `GplayFlappyBird::GameState` (lines 262-267). -/
inductive GameState where
  | GameMenu
  | GameRunning
  | GameOver
  deriving DecidableEq, Repr

/-- Engine enumeration `PhysicsCollisionObject::CollisionListener::EventType`. -/
inductive EventType where
  | COLLIDING
  | NOT_COLLIDING
  deriving DecidableEq, Repr

/-- Engine enumeration `Touch::TouchEvent`. -/
inductive TouchEvent where
  | TOUCH_PRESS
  | TOUCH_RELEASE
  | TOUCH_MOVE
  deriving DecidableEq, Repr

/-- What `collisionEvent` reads of `collisionPair.objectB` when it is not
null: the user object of its node, `none` for a null pointer, otherwise the
`type()` of the `GameEntity` it points to. -/
structure CollisionObject where
  userObject : Option E_ENTITY_TYPE
  deriving DecidableEq, Repr

/-- The data members of `GplayFlappyBird` the game logic uses (lines 251-269);
`menuEnabled`, `gameOverEnabled` and `playEnabled` are the enabled flags of
`_nodeMenu`, `_nodeGameOver` and the first child of `_nodeGameOver`. -/
structure GplayFlappyBird where
  bird : Bird
  pipes : List Pipe
  tapping : Bool
  timer : ℚ
  currentState : GameState
  menuEnabled : Bool
  gameOverEnabled : Bool
  playEnabled : Bool
  deriving DecidableEq, Repr

namespace GplayFlappyBird

open GameState

/-- The game after the constructor and `initialize` (lines 274-280, 296-377).
`_timer` is not initialised by either; `timer0` is the value it happens to
hold. -/
def init (timer0 : ℚ) : GplayFlappyBird :=
  { bird := Bird.new, pipes := [], tapping := false, timer := timer0,
    currentState := GameMenu, menuEnabled := false, gameOverEnabled := false,
    playEnabled := true }

/-- Source `GplayFlappyBird::gameOver` (lines 379-383). -/
def gameOver (g : GplayFlappyBird) : GplayFlappyBird :=
  { g with bird := g.bird.kill, currentState := GameOver }

/-- Source `GplayFlappyBird::addPipe` (lines 417-422). -/
def addPipe (rnd : ℚ) (g : GplayFlappyBird) : GplayFlappyBird :=
  { g with pipes := g.pipes ++ [Pipe.create rnd] }

/-- Source `GplayFlappyBird::removeAllPipes` (lines 424-434). -/
def removeAllPipes (g : GplayFlappyBird) : GplayFlappyBird :=
  { g with pipes := [] }

/-- Source `GplayFlappyBird::newGame` (lines 385-396). -/
def newGame (rnd : ℚ) (g : GplayFlappyBird) : GplayFlappyBird :=
  let g := removeAllPipes g
  let g := { g with menuEnabled := false }
  let g := { g with gameOverEnabled := false }
  let g := { g with timer := 0 }
  let g := { g with bird := g.bird.restart }
  let g := { g with currentState := GameRunning }
  addPipe rnd g

/-- Source `GplayFlappyBird::collisionEvent` (lines 398-415); `objectB` is `none` for
a null `collisionPair.objectB`. -/
def collisionEvent (type : EventType) (objectB : Option CollisionObject)
    (g : GplayFlappyBird) : GplayFlappyBird :=
  match type, objectB with
  | EventType.COLLIDING, some b =>
    match b.userObject with
    | some E_ENTITY_TYPE.TYPE_PIPE => gameOver g
    | _ => g
  | _, _ => g

/-- The pipe loop of `runGameLevel` (lines 468-488): walk the list from the
front, move each pipe, erase it when it is off screen, otherwise step over
it. -/
def pipeLoop (dt : ℚ) : List Pipe → List Pipe
  | [] => []
  | pipe :: rest =>
    let pipe := pipe.update dt
    if pipe.isOffScreen then pipeLoop dt rest else pipe :: pipeLoop dt rest

/-- Block of `runGameLevel`, line 458: update the bird. -/
def levelBird (dt : ℚ) (g : GplayFlappyBird) : GplayFlappyBird :=
  { g with bird := g.bird.update dt }

/-- Block of `runGameLevel`, lines 460-466: the spawn timer. -/
def levelSpawn (rnd dt : ℚ) (g : GplayFlappyBird) : GplayFlappyBird :=
  let g := { g with timer := g.timer + dt }
  if g.timer > PIPE_SPAWN_DELAY then
    let g := addPipe rnd g
    { g with timer := 0 }
  else g

/-- Block of `runGameLevel`, lines 468-488: the pipe loop on `_pipes`. -/
def levelPipes (dt : ℚ) (g : GplayFlappyBird) : GplayFlappyBird :=
  { g with pipes := pipeLoop dt g.pipes }

/-- Block of `runGameLevel`, lines 490-495: the jump on a tap. -/
def levelJump (g : GplayFlappyBird) : GplayFlappyBird :=
  if g.tapping then { g with bird := g.bird.jump, tapping := false } else g

/-- Block of `runGameLevel`, lines 497-499: the ground limit. -/
def levelGround (g : GplayFlappyBird) : GplayFlappyBird :=
  if g.bird.nodeY ≤ GROUND_POS then gameOver g else g

/-- Source `GplayFlappyBird::runGameLevel` (lines 455-500): its five blocks in
order. -/
def runGameLevel (rnd elapsedTime : ℚ) (g : GplayFlappyBird) : GplayFlappyBird :=
  levelGround (levelJump (levelPipes elapsedTime
    (levelSpawn rnd elapsedTime (levelBird elapsedTime g))))

/-- Source `GplayFlappyBird::runGameOver` (lines 502-522). -/
def runGameOver (rnd elapsedTime : ℚ) (g : GplayFlappyBird) : GplayFlappyBird :=
  let g := { g with bird := g.bird.update elapsedTime }
  let g := { g with gameOverEnabled := true }
  let g := { g with playEnabled := false }
  let g := { g with timer := g.timer + elapsedTime }
  if g.timer < 2 then g
  else
    let g := { g with playEnabled := true }
    if g.tapping then newGame rnd g else g

/-- Source `GplayFlappyBird::runGameMenu` (lines 524-532). -/
def runGameMenu (rnd : ℚ) (g : GplayFlappyBird) : GplayFlappyBird :=
  let g := { g with menuEnabled := true }
  if g.tapping then newGame rnd g else g

/-- Source `GplayFlappyBird::update` (lines 436-453); `elapsedTime` is in
milliseconds. -/
def update (rnd elapsedTime : ℚ) (g : GplayFlappyBird) : GplayFlappyBird :=
  let deltaTime := elapsedTime / 1000
  match g.currentState with
  | GameMenu => runGameMenu rnd g
  | GameOver => runGameOver rnd deltaTime g
  | GameRunning => runGameLevel rnd deltaTime g

/-- Source `GplayFlappyBird::touchEvent` (lines 571-586). -/
def touchEvent (evt : TouchEvent) (g : GplayFlappyBird) : GplayFlappyBird :=
  match evt with
  | TouchEvent.TOUCH_PRESS => { g with tapping := true }
  | TouchEvent.TOUCH_MOVE => g
  | TouchEvent.TOUCH_RELEASE => { g with tapping := false }

end GplayFlappyBird

/-! ## Runs -/

/-- The calls the engine makes into the game: a frame (`update`, with the
random value a pipe created in it would get), a touch event, a collision
event. -/
inductive Callback where
  | update (rnd elapsedTime : ℚ)
  | touchEvent (evt : TouchEvent)
  | collisionEvent (type : EventType) (objectB : Option CollisionObject)
  deriving DecidableEq, Repr

/-- The game after one call of the engine. -/
def GplayFlappyBird.call (g : GplayFlappyBird) : Callback → GplayFlappyBird
  | Callback.update rnd elapsedTime => GplayFlappyBird.update rnd elapsedTime g
  | Callback.touchEvent evt => GplayFlappyBird.touchEvent evt g
  | Callback.collisionEvent type objectB => GplayFlappyBird.collisionEvent type objectB g

/-- The game after a sequence of calls, the single-threaded engine loop. -/
def GplayFlappyBird.run (g : GplayFlappyBird) (calls : List Callback) : GplayFlappyBird :=
  calls.foldl GplayFlappyBird.call g

/-- A concrete session at 10 frames per second: a tap on the menu starts the
game, the finger is lifted, and the bird falls untouched for `n` frames. -/
def fallingSession (n : Nat) : List Callback :=
  [Callback.touchEvent TouchEvent.TOUCH_PRESS, Callback.update 0 100,
   Callback.touchEvent TouchEvent.TOUCH_RELEASE] ++ List.replicate n (Callback.update 0 100)

/-- A concrete session at 10 frames per second in which the player taps
before every frame, `n` frames long. -/
def tappingSession : Nat → List Callback
  | 0 => []
  | n + 1 =>
    Callback.touchEvent TouchEvent.TOUCH_PRESS :: Callback.update 0 100 :: tappingSession n

/-! ## Specification-side definitions -/

/-- The pipe list as the description words it: every pipe moved left by
`PIPE_SCROLL_SPEED * dt`, then only the pipes with `x ≥ PIPE_SCROLL_X_END`
kept, in order. To be compared with `GplayFlappyBird.pipeLoop`. -/
def scrollThenFilter (dt : ℚ) (pipes : List Pipe) : List Pipe :=
  (pipes.map (fun p => { p with x := p.x - PIPE_SCROLL_SPEED * dt })).filter
    (fun p => decide (p.x ≥ PIPE_SCROLL_X_END))

/-- Spacing of a pipe list against the spawn timer `t`: a pipe followed by
`k` younger pipes has travelled at least `160 * k + 100 * t` from
`PIPE_SCROLL_X_START = 200` (more than 160 is scrolled during one
`PIPE_SPAWN_DELAY`). The invariant behind the bound on the pipe population. -/
def Spaced (t : ℚ) : List Pipe → Prop
  | [] => True
  | p :: rest => p.x + 160 * (rest.length : ℚ) + 100 * t ≤ 200 ∧ Spaced t rest

/-- The invariant of the pipe list: at most 3 pipes, `x` non-decreasing from
front to back, and, while the game is running, a non-negative timer, spaced
pipes and no pipe off screen. -/
def PipesInv (g : GplayFlappyBird) : Prop :=
  g.pipes.length ≤ 3 ∧ g.pipes.Pairwise (fun p q => p.x ≤ q.x) ∧
  (g.currentState = GameState.GameRunning →
    0 ≤ g.timer ∧ Spaced g.timer g.pipes ∧ ∀ p ∈ g.pipes, PIPE_SCROLL_X_END ≤ p.x)

/-! ## Basic facts about the embedding -/

namespace GplayFlappyBird

open GameState

theorem update_of_running (rnd e : ℚ) (g : GplayFlappyBird)
    (h : g.currentState = GameRunning) :
    update rnd e g = runGameLevel rnd (e / 1000) g := by
  simp [update, h]

theorem update_of_menu (rnd e : ℚ) (g : GplayFlappyBird)
    (h : g.currentState = GameMenu) :
    update rnd e g = runGameMenu rnd g := by
  simp [update, h]

theorem update_of_over (rnd e : ℚ) (g : GplayFlappyBird)
    (h : g.currentState = GameOver) :
    update rnd e g = runGameOver rnd (e / 1000) g := by
  simp [update, h]

theorem Pipe_update_eq (dt : ℚ) (p : Pipe) :
    p.update dt = { p with x := p.x - PIPE_SCROLL_SPEED * dt } := by
  simp only [Pipe.update]
  congr 1
  ring

theorem pipeLoop_eq_scrollThenFilter (dt : ℚ) (l : List Pipe) :
    pipeLoop dt l = scrollThenFilter dt l := by
  induction l with
  | nil => rfl
  | cons p rest ih =>
    have ih2 : pipeLoop dt rest =
        (rest.map (fun p => { p with x := p.x - PIPE_SCROLL_SPEED * dt })).filter
          (fun p => decide (p.x ≥ PIPE_SCROLL_X_END)) := ih
    unfold pipeLoop scrollThenFilter
    simp only [Pipe_update_eq, Pipe.isOffScreen, List.map_cons, List.filter_cons]
    by_cases hoff : p.x - PIPE_SCROLL_SPEED * dt < PIPE_SCROLL_X_END
    · have hn : ¬ (p.x - PIPE_SCROLL_SPEED * dt ≥ PIPE_SCROLL_X_END) := not_le.mpr hoff
      simp only [hoff, hn, decide_True, decide_False, if_true]
      simpa using ih2
    · have hge : p.x - PIPE_SCROLL_SPEED * dt ≥ PIPE_SCROLL_X_END := not_lt.mp hoff
      simp only [hoff, hge, decide_True, decide_False, if_true]
      simpa using ih2

theorem levelGround_pipes (g : GplayFlappyBird) : (levelGround g).pipes = g.pipes := by
  unfold levelGround gameOver; split <;> rfl

theorem levelGround_timer (g : GplayFlappyBird) : (levelGround g).timer = g.timer := by
  unfold levelGround gameOver; split <;> rfl

theorem levelGround_tapping (g : GplayFlappyBird) :
    (levelGround g).tapping = g.tapping := by
  unfold levelGround gameOver; split <;> rfl

theorem levelJump_pipes (g : GplayFlappyBird) : (levelJump g).pipes = g.pipes := by
  unfold levelJump; split <;> rfl

theorem levelJump_timer (g : GplayFlappyBird) : (levelJump g).timer = g.timer := by
  unfold levelJump; split <;> rfl

theorem levelJump_tapping (g : GplayFlappyBird) : (levelJump g).tapping = false := by
  unfold levelJump; split
  · rfl
  · simpa using ‹¬ g.tapping = true›

theorem levelJump_state (g : GplayFlappyBird) :
    (levelJump g).currentState = g.currentState := by
  unfold levelJump; split <;> rfl

theorem levelJump_nodeY (g : GplayFlappyBird) :
    (levelJump g).bird.nodeY = g.bird.nodeY := by
  unfold levelJump Bird.jump; split
  · split <;> rfl
  · rfl

theorem levelSpawn_state (rnd dt : ℚ) (g : GplayFlappyBird) :
    (levelSpawn rnd dt g).currentState = g.currentState := by
  unfold levelSpawn addPipe; simp only; split <;> rfl

theorem levelSpawn_bird (rnd dt : ℚ) (g : GplayFlappyBird) :
    (levelSpawn rnd dt g).bird = g.bird := by
  unfold levelSpawn addPipe; simp only; split <;> rfl

theorem levelSpawn_tapping (rnd dt : ℚ) (g : GplayFlappyBird) :
    (levelSpawn rnd dt g).tapping = g.tapping := by
  unfold levelSpawn addPipe; simp only; split <;> rfl

theorem levelSpawn_pipes (rnd dt : ℚ) (g : GplayFlappyBird) :
    (levelSpawn rnd dt g).pipes =
      if g.timer + dt > PIPE_SPAWN_DELAY then g.pipes ++ [Pipe.create rnd] else g.pipes := by
  unfold levelSpawn addPipe; simp only; split <;> rfl

theorem levelSpawn_timer (rnd dt : ℚ) (g : GplayFlappyBird) :
    (levelSpawn rnd dt g).timer =
      if g.timer + dt > PIPE_SPAWN_DELAY then 0 else g.timer + dt := by
  unfold levelSpawn addPipe; simp only; split <;> rfl

theorem runGameLevel_pipes (rnd dt : ℚ) (g : GplayFlappyBird) :
    (runGameLevel rnd dt g).pipes =
      pipeLoop dt (if g.timer + dt > PIPE_SPAWN_DELAY then g.pipes ++ [Pipe.create rnd]
        else g.pipes) := by
  simp [runGameLevel, levelGround_pipes, levelJump_pipes, levelPipes, levelSpawn_pipes,
    levelBird]

theorem runGameLevel_timer (rnd dt : ℚ) (g : GplayFlappyBird) :
    (runGameLevel rnd dt g).timer =
      if g.timer + dt > PIPE_SPAWN_DELAY then 0 else g.timer + dt := by
  simp [runGameLevel, levelGround_timer, levelJump_timer, levelPipes, levelSpawn_timer,
    levelBird]

theorem runGameLevel_tapping (rnd dt : ℚ) (g : GplayFlappyBird) :
    (runGameLevel rnd dt g).tapping = false := by
  simp [runGameLevel, levelGround_tapping, levelJump_tapping]

theorem runGameLevel_state (rnd dt : ℚ) (g : GplayFlappyBird)
    (h : g.currentState = GameRunning) :
    (runGameLevel rnd dt g).currentState =
      if (g.bird.update dt).nodeY ≤ GROUND_POS then GameOver else GameRunning := by
  have hy : (levelJump (levelPipes dt (levelSpawn rnd dt (levelBird dt g)))).bird.nodeY
      = (g.bird.update dt).nodeY := by
    rw [levelJump_nodeY]; simp [levelPipes, levelSpawn_bird, levelBird]
  have hs : (levelJump (levelPipes dt (levelSpawn rnd dt (levelBird dt g)))).currentState
      = GameRunning := by
    rw [levelJump_state]; simp [levelPipes, levelSpawn_state, levelBird, h]
  unfold runGameLevel levelGround
  rw [hy]
  split
  · rfl
  · exact hs

theorem bird_update_floor (b : Bird) (dt : ℚ) : GROUND_POS ≤ (b.update dt).nodeY := by
  simp only [Bird.update]
  split
  · exact le_refl _
  · next h => exact not_lt.mp h

theorem pipeLoop_length_le (dt : ℚ) (l : List Pipe) :
    (pipeLoop dt l).length ≤ l.length := by
  rw [pipeLoop_eq_scrollThenFilter]
  unfold scrollThenFilter
  exact (List.length_filter_le _ _).trans (le_of_eq (List.length_map _ _))

theorem newGame_eq (rnd : ℚ) (g : GplayFlappyBird) :
    newGame rnd g =
      { g with pipes := [Pipe.create rnd], menuEnabled := false, gameOverEnabled := false,
               timer := 0, bird := g.bird.restart, currentState := GameRunning } := rfl

theorem runGameMenu_tapping (rnd : ℚ) (g : GplayFlappyBird) :
    (runGameMenu rnd g).tapping = g.tapping := by
  unfold runGameMenu
  simp only
  split <;> rfl

theorem runGameOver_tapping (rnd dt : ℚ) (g : GplayFlappyBird) :
    (runGameOver rnd dt g).tapping = g.tapping := by
  unfold runGameOver
  simp only
  split
  · rfl
  · split <;> rfl

theorem levelJump_of_tapping (g : GplayFlappyBird) (ht : g.tapping = true)
    (ha : g.bird.isAlive = true) : (levelJump g).bird.velocity = JUMP_VELOCITY := by
  simp [levelJump, Bird.jump, ht, ha]

theorem levelGround_velocity (g : GplayFlappyBird)
    (hv : g.bird.velocity = JUMP_VELOCITY) :
    (levelGround g).bird.velocity = JUMP_VELOCITY := by
  unfold levelGround gameOver Bird.kill Bird.jump
  split
  · split
    · rfl
    · exact hv
  · exact hv

/-! ### The pipe population -/

theorem spaced_pipeLoop (t dt : ℚ) (l : List Pipe) (h : Spaced t l) :
    Spaced (t + dt) (pipeLoop dt l) := by
  induction l with
  | nil => exact h
  | cons p rest ih =>
    obtain ⟨hp, hrest⟩ := h
    have ihr := ih hrest
    unfold pipeLoop
    simp only
    split
    · exact ihr
    · refine ⟨?_, ihr⟩
      have hlen : ((pipeLoop dt rest).length : ℚ) ≤ (rest.length : ℚ) := by
        exact_mod_cast pipeLoop_length_le dt rest
      simp only [Pipe.update, PIPE_SCROLL_SPEED]
      linarith

theorem spaced_append_create (t dt rnd : ℚ) (l : List Pipe) (h : Spaced t l)
    (hdt : 0 ≤ dt) (hdelay : PIPE_SPAWN_DELAY < t + dt) :
    Spaced (-dt) (l ++ [Pipe.create rnd]) := by
  induction l with
  | nil =>
    refine ⟨?_, trivial⟩
    simp only [Pipe.create, PIPE_SCROLL_X_START, List.length_nil, Nat.cast_zero]
    linarith
  | cons p rest ih =>
    obtain ⟨hp, hrest⟩ := h
    refine ⟨?_, ih hrest⟩
    have hlen : (((rest ++ [Pipe.create rnd]).length : ℕ) : ℚ) = (rest.length : ℚ) + 1 := by
      simp
    show p.x + 160 * (((rest ++ [Pipe.create rnd]).length : ℕ) : ℚ) + 100 * -dt ≤ 200
    rw [hlen]
    unfold PIPE_SPAWN_DELAY at hdelay
    linarith

theorem spaced_le_start (t : ℚ) (l : List Pipe) (h : Spaced t l) (ht : 0 ≤ t) :
    ∀ p ∈ l, p.x ≤ PIPE_SCROLL_X_START := by
  induction l with
  | nil => intro p hp; cases hp
  | cons q rest ih =>
    obtain ⟨hq, hrest⟩ := h
    intro p hp
    rcases List.mem_cons.mp hp with rfl | hmem
    · have hlen : (0 : ℚ) ≤ (rest.length : ℚ) := Nat.cast_nonneg _
      unfold PIPE_SCROLL_X_START
      linarith
    · exact ih hrest p hmem

theorem spaced_length_le_three (t : ℚ) (l : List Pipe) (h : Spaced t l) (ht : 0 ≤ t)
    (hon : ∀ p ∈ l, PIPE_SCROLL_X_END ≤ p.x) : l.length ≤ 3 := by
  cases l with
  | nil => simp
  | cons p rest =>
    obtain ⟨hp, -⟩ := h
    have hx : PIPE_SCROLL_X_END ≤ p.x := hon p (List.mem_cons_self _ _)
    unfold PIPE_SCROLL_X_END at hx
    by_contra hlen
    have h3 : 3 ≤ rest.length := by
      simp only [List.length_cons, not_le] at hlen
      omega
    have h3q : (3 : ℚ) ≤ (rest.length : ℚ) := by exact_mod_cast h3
    linarith

theorem pipeLoop_on_screen (dt : ℚ) (l : List Pipe) :
    ∀ p ∈ pipeLoop dt l, PIPE_SCROLL_X_END ≤ p.x := by
  intro p hp
  rw [pipeLoop_eq_scrollThenFilter] at hp
  simp only [scrollThenFilter, List.mem_filter, decide_eq_true_eq] at hp
  exact hp.2

theorem pipeLoop_eq_filter_map_update (dt : ℚ) (l : List Pipe) :
    pipeLoop dt l
      = (l.map (Pipe.update dt)).filter (fun p => decide (p.x ≥ PIPE_SCROLL_X_END)) := by
  rw [pipeLoop_eq_scrollThenFilter]
  unfold scrollThenFilter
  congr 2
  funext p
  exact (Pipe_update_eq dt p).symm

theorem pipeLoop_sorted (dt : ℚ) (l : List Pipe)
    (h : l.Pairwise (fun p q => p.x ≤ q.x)) :
    (pipeLoop dt l).Pairwise (fun p q => p.x ≤ q.x) := by
  rw [pipeLoop_eq_filter_map_update]
  apply List.Pairwise.filter
  apply List.Pairwise.map _ _ h
  intro a b hab
  simp only [Pipe.update]
  linarith

theorem filter_sorted_eq_drop (c : ℚ) (l : List Pipe)
    (h : l.Pairwise (fun p q => p.x ≤ q.x)) :
    ∃ k, l.filter (fun p => decide (p.x ≥ c)) = l.drop k := by
  induction l with
  | nil => exact ⟨0, rfl⟩
  | cons p rest ih =>
    rw [List.pairwise_cons] at h
    obtain ⟨hp, hrest⟩ := h
    by_cases hc : p.x ≥ c
    · refine ⟨0, ?_⟩
      rw [List.drop_zero, List.filter_eq_self]
      intro q hq
      rcases List.mem_cons.mp hq with rfl | hmem
      · simpa using hc
      · have := hp q hmem
        simp only [decide_eq_true_eq]
        exact le_trans hc this
    · obtain ⟨k, hk⟩ := ih hrest
      refine ⟨k + 1, ?_⟩
      rw [List.filter_cons]
      simp only [hc, decide_False, List.drop_succ_cons]
      simpa using hk

theorem entry_sorted (rnd t dt : ℚ) (l : List Pipe) (hs : Spaced t l) (ht : 0 ≤ t)
    (h : l.Pairwise (fun p q => p.x ≤ q.x)) :
    (if t + dt > PIPE_SPAWN_DELAY then l ++ [Pipe.create rnd] else l).Pairwise
      (fun p q => p.x ≤ q.x) := by
  split
  · rw [List.pairwise_append]
    refine ⟨h, List.pairwise_singleton _ _, ?_⟩
    intro a ha b hb
    rw [List.mem_singleton] at hb
    subst hb
    exact spaced_le_start t l hs ht a ha
  · exact h

theorem pipesInv_runGameLevel (rnd dt : ℚ) (g : GplayFlappyBird) (hdt : 0 ≤ dt)
    (ht : 0 ≤ g.timer) (hs : Spaced g.timer g.pipes)
    (hsorted : g.pipes.Pairwise (fun p q => p.x ≤ q.x)) :
    PipesInv (runGameLevel rnd dt g) := by
  have hon : ∀ p ∈ (runGameLevel rnd dt g).pipes, PIPE_SCROLL_X_END ≤ p.x := by
    rw [runGameLevel_pipes]
    exact pipeLoop_on_screen _ _
  have hsrt : (runGameLevel rnd dt g).pipes.Pairwise (fun p q => p.x ≤ q.x) := by
    rw [runGameLevel_pipes]
    exact pipeLoop_sorted _ _ (entry_sorted rnd g.timer dt g.pipes hs ht hsorted)
  have htm : 0 ≤ (runGameLevel rnd dt g).timer := by
    rw [runGameLevel_timer]
    split
    · exact le_refl _
    · exact add_nonneg ht hdt
  have hsp : Spaced (runGameLevel rnd dt g).timer (runGameLevel rnd dt g).pipes := by
    rw [runGameLevel_pipes, runGameLevel_timer]
    by_cases hspawn : g.timer + dt > PIPE_SPAWN_DELAY
    · simp only [if_pos hspawn]
      have h1 := spaced_append_create g.timer dt rnd g.pipes hs hdt hspawn
      have h2 := spaced_pipeLoop (-dt) dt _ h1
      have hz : -dt + dt = 0 := by ring
      rw [hz] at h2
      exact h2
    · simp only [if_neg hspawn]
      exact spaced_pipeLoop g.timer dt _ hs
  exact ⟨spaced_length_le_three _ _ hsp htm hon, hsrt, fun _ => ⟨htm, hsp, hon⟩⟩

theorem pipesInv_fresh (rnd : ℚ) (g : GplayFlappyBird)
    (hp : g.pipes = [Pipe.create rnd]) (ht : g.timer = 0) : PipesInv g := by
  unfold PipesInv
  rw [hp, ht]
  refine ⟨by simp, by simp, fun _ => ⟨le_refl _, ?_, ?_⟩⟩
  · refine ⟨?_, trivial⟩
    simp [Pipe.create, PIPE_SCROLL_X_START]
  · intro p hp
    simp only [List.mem_singleton] at hp
    subst hp
    simp [Pipe.create, PIPE_SCROLL_X_START, PIPE_SCROLL_X_END]

theorem pipesInv_newGame (rnd : ℚ) (g : GplayFlappyBird) : PipesInv (newGame rnd g) :=
  pipesInv_fresh rnd _ rfl rfl

theorem pipesInv_of_pipes_eq (g g1 : GplayFlappyBird) (h : PipesInv g)
    (hp : g1.pipes = g.pipes) (hstate : g1.currentState = GameRunning →
      g.currentState = GameRunning ∧ g1.timer = g.timer) : PipesInv g1 := by
  obtain ⟨hlen, hsorted, hrun⟩ := h
  refine ⟨hp ▸ hlen, hp ▸ hsorted, ?_⟩
  intro hs
  obtain ⟨hs0, htm⟩ := hstate hs
  rw [hp, htm]
  exact hrun hs0

theorem pipesInv_call (g : GplayFlappyBird) (c : Callback) (h : PipesInv g)
    (hc : ∀ rnd e, c = Callback.update rnd e → 0 ≤ e) : PipesInv (g.call c) := by
  cases c with
  | update rnd e =>
    have he : 0 ≤ e / 1000 := div_nonneg (hc rnd e rfl) (by norm_num)
    show PipesInv (update rnd e g)
    cases hs : g.currentState with
    | GameMenu =>
      rw [update_of_menu rnd e g hs]
      cases ht : g.tapping
      · apply pipesInv_of_pipes_eq g _ h
        · simp [runGameMenu, ht]
        · intro hrun
          simp [runGameMenu, ht, hs] at hrun
      · have : runGameMenu rnd g = newGame rnd { g with menuEnabled := true } := by
          simp [runGameMenu, ht]
        rw [this]
        exact pipesInv_newGame _ _
    | GameRunning =>
      rw [update_of_running rnd e g hs]
      obtain ⟨-, hsorted, hrun⟩ := h
      obtain ⟨htm, hsp, -⟩ := hrun hs
      exact pipesInv_runGameLevel rnd _ g he htm hsp hsorted
    | GameOver =>
      rw [update_of_over rnd e g hs]
      by_cases hlt : g.timer + e / 1000 < 2
      · apply pipesInv_of_pipes_eq g _ h
        · simp [runGameOver, hlt]
        · intro hrun
          simp [runGameOver, hlt, hs] at hrun
      · cases ht : g.tapping
        · apply pipesInv_of_pipes_eq g _ h
          · simp [runGameOver, hlt, ht]
          · intro hrun
            simp [runGameOver, hlt, ht, hs] at hrun
        · apply pipesInv_fresh rnd
          · simp [runGameOver, hlt, ht, newGame_eq]
          · simp [runGameOver, hlt, ht, newGame_eq]
  | touchEvent evt =>
    show PipesInv (touchEvent evt g)
    apply pipesInv_of_pipes_eq g _ h
    · cases evt <;> rfl
    · intro hrun
      cases evt <;> exact ⟨hrun, rfl⟩
  | collisionEvent type objectB =>
    show PipesInv (collisionEvent type objectB g)
    have hcases : collisionEvent type objectB g = g ∨
        collisionEvent type objectB g = gameOver g := by
      unfold collisionEvent
      split
      · split
        · right; rfl
        · left; rfl
      · left; rfl
    rcases hcases with hid | hgo
    · rw [hid]; exact h
    · rw [hgo]
      refine pipesInv_of_pipes_eq g (gameOver g) h rfl ?_
      intro hrun
      simp [gameOver] at hrun

theorem pipesInv_run (calls : List Callback) (g : GplayFlappyBird) (h : PipesInv g)
    (hc : ∀ rnd e, Callback.update rnd e ∈ calls → 0 ≤ e) : PipesInv (g.run calls) := by
  induction calls generalizing g with
  | nil => exact h
  | cons c cs ih =>
    show PipesInv ((g.call c).run cs)
    apply ih
    · apply pipesInv_call g c h
      intro rnd e hce
      exact hc rnd e (by rw [hce]; exact List.mem_cons_self _ _)
    · intro rnd e hmem
      exact hc rnd e (List.mem_cons_of_mem _ hmem)

theorem tappingSession_elapsed (n : Nat) :
    ∀ rnd e, Callback.update rnd e ∈ tappingSession n → 0 ≤ e := by
  induction n with
  | zero => intro rnd e h; cases h
  | succ n ih =>
    intro rnd e h
    simp only [tappingSession, List.mem_cons, Callback.update.injEq, reduceCtorEq,
      false_or] at h
    rcases h with ⟨-, rfl⟩ | h
    · norm_num
    · exact ih rnd e h

/-! ### No pipe before the first game -/

theorem collisionEvent_cases (type : EventType) (objectB : Option CollisionObject)
    (g : GplayFlappyBird) :
    collisionEvent type objectB g = g ∨
      ((∃ b, objectB = some b ∧ b.userObject = some E_ENTITY_TYPE.TYPE_PIPE) ∧
        collisionEvent type objectB g = gameOver g) := by
  cases type with
  | NOT_COLLIDING => left; cases objectB <;> rfl
  | COLLIDING =>
    cases objectB with
    | none => left; rfl
    | some b =>
      obtain ⟨u⟩ := b
      cases u with
      | none => left; rfl
      | some t =>
        cases t with
        | TYPE_NONE => left; rfl
        | TYPE_BIRD => left; rfl
        | TYPE_PIPE => right; exact ⟨⟨_, rfl, rfl⟩, rfl⟩

theorem update_state_cases (rnd e : ℚ) (g : GplayFlappyBird) :
    ((update rnd e g).currentState = g.currentState ∧ (g.currentState = GameMenu →
        (update rnd e g).pipes = g.pipes)) ∨
      (g.currentState = GameMenu ∧ (update rnd e g).currentState = GameRunning) ∨
      (g.currentState = GameRunning ∧ (update rnd e g).currentState = GameOver) ∨
      (g.currentState = GameOver ∧ (update rnd e g).currentState = GameRunning) := by
  cases hs : g.currentState with
  | GameMenu =>
    rw [update_of_menu rnd e g hs]
    cases ht : g.tapping
    · left; simp [runGameMenu, ht, hs]
    · right; left; exact ⟨rfl, by simp [runGameMenu, ht, newGame_eq]⟩
  | GameRunning =>
    rw [update_of_running rnd e g hs, runGameLevel_state rnd _ g hs]
    split
    · right; right; left; exact ⟨rfl, rfl⟩
    · left; exact ⟨rfl, fun h => absurd h (by simp)⟩
  | GameOver =>
    rw [update_of_over rnd e g hs]
    by_cases hlt : g.timer + e / 1000 < 2
    · left; simp [runGameOver, hlt, hs]
    · cases ht : g.tapping
      · left; simp [runGameOver, hlt, ht, hs]
      · right; right; right
        exact ⟨rfl, by simp [runGameOver, hlt, ht, newGame_eq]⟩

theorem menu_no_pipes_call (g : GplayFlappyBird) (c : Callback)
    (h : g.currentState = GameMenu → g.pipes = []) :
    (g.call c).currentState = GameMenu → (g.call c).pipes = [] := by
  cases c with
  | update rnd e =>
    show (update rnd e g).currentState = GameMenu → (update rnd e g).pipes = []
    intro hm
    rcases update_state_cases rnd e g with ⟨hsame, hp⟩ | ⟨-, h2⟩ | ⟨-, h2⟩ | ⟨-, h2⟩
    · have hg : g.currentState = GameMenu := by rw [← hsame]; exact hm
      rw [hp hg]
      exact h hg
    · rw [h2] at hm; cases hm
    · rw [h2] at hm; cases hm
    · rw [h2] at hm; cases hm
  | touchEvent evt =>
    show (touchEvent evt g).currentState = GameMenu → (touchEvent evt g).pipes = []
    cases evt <;> exact h
  | collisionEvent type objectB =>
    show (collisionEvent type objectB g).currentState = GameMenu →
      (collisionEvent type objectB g).pipes = []
    rcases collisionEvent_cases type objectB g with hid | ⟨-, hgo⟩
    · rw [hid]; exact h
    · rw [hgo]
      intro hm
      cases hm

theorem menu_no_pipes_run (calls : List Callback) (g : GplayFlappyBird)
    (h : g.currentState = GameMenu → g.pipes = []) :
    (g.run calls).currentState = GameMenu → (g.run calls).pipes = [] := by
  induction calls generalizing g with
  | nil => exact h
  | cons c cs ih => exact ih (g.call c) (menu_no_pipes_call g c h)

end GplayFlappyBird

/-! ## The properties -/

open GplayFlappyBird GameState

/-- C1. `Bird::update(dt)` is the two-line integration with a floor clamp:
the new velocity is `v + GRAVITY*dt`, never clamped; the new position is
`max(GROUND_POS, p + (v + GRAVITY*dt)*dt)`, computed from the updated
velocity, so it is at least `GROUND_POS = -182` after every update. -/
theorem bird_update_integrates_then_clamps (b : Bird) (dt : ℚ) :
    (b.update dt).velocity = b.velocity + GRAVITY * dt ∧
    (b.update dt).position
      = max GROUND_POS (b.position + (b.velocity + GRAVITY * dt) * dt) ∧
    (b.update dt).nodeY = (b.update dt).position ∧
    GROUND_POS ≤ (b.update dt).position ∧
    GROUND_POS = -182 := by
  refine ⟨rfl, ?_, rfl, ?_, rfl⟩
  · simp only [Bird.update]
    split
    · next h => exact (max_eq_left (le_of_lt h)).symm
    · next h => exact (max_eq_right (not_lt.mp h)).symm
  · simp only [Bird.update]
    split
    · exact le_refl _
    · next h => exact not_lt.mp h

/-- C4. Ground death: a frame in state `GameRunning` with elapsed time
`dt = elapsedTime / 1000` ends in `GameOver` exactly when the integrated
position reaches the floor, `position + newVelocity*dt ≤ GROUND_POS`, which
is exactly when the clamped position equals `GROUND_POS`; otherwise it ends
in `GameRunning`; the tap flag of the frame does not change the outcome. -/
theorem ground_death_iff_floor_reached (rnd elapsedTime : ℚ) (g : GplayFlappyBird)
    (h : g.currentState = GameRunning) :
    ((update rnd elapsedTime g).currentState = GameOver ↔
      g.bird.position + (g.bird.velocity + GRAVITY * (elapsedTime / 1000))
        * (elapsedTime / 1000) ≤ GROUND_POS) ∧
    ((update rnd elapsedTime g).currentState = GameRunning ↔
      ¬ (g.bird.position + (g.bird.velocity + GRAVITY * (elapsedTime / 1000))
        * (elapsedTime / 1000) ≤ GROUND_POS)) ∧
    (g.bird.position + (g.bird.velocity + GRAVITY * (elapsedTime / 1000))
        * (elapsedTime / 1000) ≤ GROUND_POS ↔
      (update rnd elapsedTime g).bird.position = GROUND_POS) ∧
    (∀ tap : Bool, (update rnd elapsedTime { g with tapping := tap }).currentState
      = (update rnd elapsedTime g).currentState) := by
  have hy : ∀ b : Bird, ((b.update (elapsedTime / 1000)).nodeY ≤ GROUND_POS ↔
      b.position + (b.velocity + GRAVITY * (elapsedTime / 1000))
        * (elapsedTime / 1000) ≤ GROUND_POS) := by
    intro b
    simp only [Bird.update]
    split
    · next hlt => exact ⟨fun _ => le_of_lt hlt, fun _ => le_refl _⟩
    · exact Iff.rfl
  have hp : (update rnd elapsedTime g).bird.position
      = (g.bird.update (elapsedTime / 1000)).nodeY := by
    rw [update_of_running rnd elapsedTime g h]
    have h1 : ∀ s : GplayFlappyBird, (levelGround s).bird.position = s.bird.position := by
      intro s; unfold levelGround gameOver Bird.kill Bird.jump
      split
      · split <;> rfl
      · rfl
    have h2 : ∀ s : GplayFlappyBird, (levelJump s).bird.position = s.bird.position := by
      intro s; unfold levelJump Bird.jump
      split
      · split <;> rfl
      · rfl
    unfold runGameLevel
    rw [h1, h2]
    simp [levelPipes, levelSpawn_bird, levelBird, Bird.update]
  have hs := runGameLevel_state rnd (elapsedTime / 1000) g h
  rw [← update_of_running rnd elapsedTime g h] at hs
  refine ⟨?_, ?_, ?_, ?_⟩
  · rw [hs, ← hy]
    split <;> simp_all
  · rw [hs, ← hy]
    split <;> simp_all
  · rw [hp, ← hy]
    constructor
    · intro hle
      refine le_antisymm hle ?_
      have := (bird_update_floor g.bird (elapsedTime / 1000))
      exact this
    · intro heq
      exact le_of_eq heq
  · intro tap
    have ht : ({ g with tapping := tap } : GplayFlappyBird).currentState = GameRunning := h
    rw [update_of_running rnd elapsedTime _ ht, update_of_running rnd elapsedTime g h,
      runGameLevel_state rnd _ _ ht, runGameLevel_state rnd _ g h]

/-- C4, at a concrete frame: a new game and one frame of 1500 ms. -/
theorem ground_death_iff_floor_reached_witness :
    (newGame 0 (init 0)).currentState = GameRunning ∧
    ((update 0 1500 (newGame 0 (init 0))).currentState = GameOver ↔
      (newGame 0 (init 0)).bird.position
        + ((newGame 0 (init 0)).bird.velocity + GRAVITY * (1500 / 1000))
        * (1500 / 1000) ≤ GROUND_POS) :=
  ⟨rfl, (ground_death_iff_floor_reached 0 1500 (newGame 0 (init 0)) rfl).1⟩

/-- C5. `collisionEvent` reacts only to bird/pipe collisions. When the event
type is `COLLIDING`, `objectB` is present and its node carries an entity of
type `TYPE_PIPE`, it runs `gameOver`: the state becomes `GameOver`, the bird is
not alive afterwards, its velocity is `JUMP_VELOCITY` only if it was alive
before, pipes and timer are untouched, and a second such event changes
nothing. For any other event type, a null `objectB`, an object with no entity
or a non-pipe entity, the whole game (state, bird, pipe list, timer) is
unchanged; so the game changes only on a bird/pipe collision, and it does
change on one whenever the game is not over yet. -/
theorem collisionEvent_reacts_only_to_pipes (type : EventType)
    (objectB : Option CollisionObject) (g : GplayFlappyBird) :
    ((type = EventType.COLLIDING ∧
        ∃ b, objectB = some b ∧ b.userObject = some E_ENTITY_TYPE.TYPE_PIPE) →
      collisionEvent type objectB g = gameOver g ∧
      (collisionEvent type objectB g).currentState = GameOver ∧
      (collisionEvent type objectB g).bird.isAlive = false ∧
      (collisionEvent type objectB g).bird.velocity
        = (if g.bird.isAlive then JUMP_VELOCITY else g.bird.velocity) ∧
      (collisionEvent type objectB g).bird.position = g.bird.position ∧
      (collisionEvent type objectB g).pipes = g.pipes ∧
      (collisionEvent type objectB g).timer = g.timer ∧
      collisionEvent type objectB (collisionEvent type objectB g)
        = collisionEvent type objectB g) ∧
    (¬ (type = EventType.COLLIDING ∧
        ∃ b, objectB = some b ∧ b.userObject = some E_ENTITY_TYPE.TYPE_PIPE) →
      collisionEvent type objectB g = g) ∧
    (collisionEvent type objectB g ≠ g →
      type = EventType.COLLIDING ∧
        ∃ b, objectB = some b ∧ b.userObject = some E_ENTITY_TYPE.TYPE_PIPE) ∧
    ((type = EventType.COLLIDING ∧
        ∃ b, objectB = some b ∧ b.userObject = some E_ENTITY_TYPE.TYPE_PIPE) →
      g.currentState ≠ GameOver → collisionEvent type objectB g ≠ g) := by
  have hpos : ∀ s : GplayFlappyBird, collisionEvent EventType.COLLIDING
      (some ⟨some E_ENTITY_TYPE.TYPE_PIPE⟩) s = gameOver s := fun _ => rfl
  have hneg : ¬ (type = EventType.COLLIDING ∧
        ∃ b, objectB = some b ∧ b.userObject = some E_ENTITY_TYPE.TYPE_PIPE) →
      collisionEvent type objectB g = g := by
    intro hn
    cases type with
    | NOT_COLLIDING => cases objectB <;> rfl
    | COLLIDING =>
      cases objectB with
      | none => rfl
      | some b =>
        obtain ⟨u⟩ := b
        cases u with
        | none => rfl
        | some t =>
          cases t with
          | TYPE_NONE => rfl
          | TYPE_BIRD => rfl
          | TYPE_PIPE => exact absurd ⟨rfl, ⟨some E_ENTITY_TYPE.TYPE_PIPE⟩, rfl, rfl⟩ hn
  refine ⟨?_, hneg, ?_, ?_⟩
  rotate_left
  · intro hne
    by_contra hn
    exact hne (hneg hn)
  · rintro ⟨rfl, b, rfl, hb⟩ hs heq
    obtain ⟨u⟩ := b
    simp only at hb
    subst hb
    rw [hpos] at heq
    exact hs (heq ▸ rfl)
  · rintro ⟨rfl, b, rfl, hb⟩
    obtain ⟨u⟩ := b
    simp only at hb
    subst hb
    rw [hpos, hpos]
    refine ⟨rfl, rfl, rfl, ?_, ?_, rfl, rfl, ?_⟩
    · simp only [gameOver, Bird.kill, Bird.jump]
      split <;> rfl
    · simp only [gameOver, Bird.kill, Bird.jump]
      split <;> rfl
    · cases hal : g.bird.isAlive <;> simp [gameOver, Bird.kill, Bird.jump, hal]

/-- C5, at a concrete event: a pipe collision during a running game. -/
theorem collisionEvent_reacts_only_to_pipes_witness :
    (collisionEvent EventType.COLLIDING (some ⟨some E_ENTITY_TYPE.TYPE_PIPE⟩)
        (newGame 0 (init 0))).currentState = GameOver ∧
    collisionEvent EventType.NOT_COLLIDING (some ⟨some E_ENTITY_TYPE.TYPE_PIPE⟩)
        (newGame 0 (init 0)) = newGame 0 (init 0) :=
  ⟨((collisionEvent_reacts_only_to_pipes EventType.COLLIDING
      (some ⟨some E_ENTITY_TYPE.TYPE_PIPE⟩) (newGame 0 (init 0))).1
      ⟨rfl, ⟨some E_ENTITY_TYPE.TYPE_PIPE⟩, rfl, rfl⟩).2.1,
   (collisionEvent_reacts_only_to_pipes EventType.NOT_COLLIDING
      (some ⟨some E_ENTITY_TYPE.TYPE_PIPE⟩) (newGame 0 (init 0))).2.1
      (by simp)⟩

/-- C6. Spawn timer: in a frame in state `GameRunning` with elapsed time
`dt = elapsedTime / 1000` and timer `t` on entry, if `t + dt > PIPE_SPAWN_DELAY`
(the `float` 1.6f, strict) exactly one new pipe is appended at the back of the list (the
list the pipe loop then walks) and the timer is reset to 0; otherwise no pipe
is appended and the timer becomes `t + dt`. No frame appends more than one
pipe, whatever `dt`. -/
theorem spawn_timer_appends_at_most_one (rnd elapsedTime : ℚ) (g : GplayFlappyBird)
    (h : g.currentState = GameRunning) :
    (g.timer + elapsedTime / 1000 > PIPE_SPAWN_DELAY →
      (levelSpawn rnd (elapsedTime / 1000) (levelBird (elapsedTime / 1000) g)).pipes
        = g.pipes ++ [Pipe.create rnd] ∧
      (update rnd elapsedTime g).pipes
        = pipeLoop (elapsedTime / 1000) (g.pipes ++ [Pipe.create rnd]) ∧
      (update rnd elapsedTime g).timer = 0) ∧
    (¬ (g.timer + elapsedTime / 1000 > PIPE_SPAWN_DELAY) →
      (levelSpawn rnd (elapsedTime / 1000) (levelBird (elapsedTime / 1000) g)).pipes
        = g.pipes ∧
      (update rnd elapsedTime g).pipes = pipeLoop (elapsedTime / 1000) g.pipes ∧
      (update rnd elapsedTime g).timer = g.timer + elapsedTime / 1000) ∧
    (levelSpawn rnd (elapsedTime / 1000) (levelBird (elapsedTime / 1000) g)).pipes.length
      ≤ g.pipes.length + 1 ∧
    (update rnd elapsedTime g).pipes.length ≤ g.pipes.length + 1 ∧
    PIPE_SPAWN_DELAY = 13421773 / 8388608 ∧
    16 / 10 < PIPE_SPAWN_DELAY ∧ PIPE_SPAWN_DELAY < 16 / 10 + 1 / 2 ^ 24 := by
  rw [update_of_running rnd elapsedTime g h, runGameLevel_pipes, runGameLevel_timer,
    levelSpawn_pipes]
  have hb : (levelBird (elapsedTime / 1000) g).pipes = g.pipes := rfl
  have ht : (levelBird (elapsedTime / 1000) g).timer = g.timer := rfl
  rw [hb, ht]
  refine ⟨?_, ?_, ?_, ?_, rfl, by norm_num [PIPE_SPAWN_DELAY],
    by norm_num [PIPE_SPAWN_DELAY]⟩
  · intro hgt
    simp only [if_pos hgt, and_self]
  · intro hle
    simp only [if_neg hle, and_self]
  · split <;> simp
  · refine (pipeLoop_length_le _ _).trans ?_
    split <;> simp

/-- C6, at two concrete frames with timer 1.5 s on entry: a frame of 200 ms
spawns a pipe and resets the timer; a frame of `100 + 2^-17` ms, which takes
the timer above 1.6 but not above the `float` 1.6f, spawns nothing. -/
theorem spawn_timer_appends_at_most_one_witness :
    ({ newGame 0 (init 0) with timer := 3 / 2 } : GplayFlappyBird).currentState
      = GameRunning ∧
    ((3 / 2 : ℚ) + 200 / 1000 > PIPE_SPAWN_DELAY) ∧
    (update 0 200 { newGame 0 (init 0) with timer := 3 / 2 }).timer = 0 ∧
    ((3 / 2 : ℚ) + (100 + 1 / 131072) / 1000 > 16 / 10) ∧
    ¬ ((3 / 2 : ℚ) + (100 + 1 / 131072) / 1000 > PIPE_SPAWN_DELAY) ∧
    (update 0 (100 + 1 / 131072) { newGame 0 (init 0) with timer := 3 / 2 }).timer
      = 3 / 2 + (100 + 1 / 131072) / 1000 :=
  ⟨rfl, by norm_num [PIPE_SPAWN_DELAY],
    ((spawn_timer_appends_at_most_one 0 200 { newGame 0 (init 0) with timer := 3 / 2 }
      rfl).1 (by norm_num [PIPE_SPAWN_DELAY])).2.2,
    by norm_num, by norm_num [PIPE_SPAWN_DELAY],
    ((spawn_timer_appends_at_most_one 0 (100 + 1 / 131072)
      { newGame 0 (init 0) with timer := 3 / 2 } rfl).2.1
      (by norm_num [PIPE_SPAWN_DELAY])).2.2⟩

/-- C7. Scroll-and-filter: in a frame in state `GameRunning` the pipe list
after the erase loop is the list on loop entry (a pipe spawned in this frame
included) with every `x` decreased by `PIPE_SCROLL_SPEED * dt` and then
filtered to the pipes with `x ≥ PIPE_SCROLL_X_END = -200`, in the same order.
Hence after the frame no pipe of the list is off screen, every surviving pipe
is an entry pipe moved by exactly `-100 * dt`, and every entry pipe that is
still on screen after the move survives. -/
theorem pipe_loop_is_scroll_then_filter (rnd elapsedTime : ℚ) (g : GplayFlappyBird)
    (h : g.currentState = GameRunning) :
    (update rnd elapsedTime g).pipes
      = scrollThenFilter (elapsedTime / 1000)
          (levelSpawn rnd (elapsedTime / 1000) (levelBird (elapsedTime / 1000) g)).pipes ∧
    (∀ p ∈ (update rnd elapsedTime g).pipes,
      p.isOffScreen = false ∧ (-200 : ℚ) ≤ p.x) ∧
    (∀ p ∈ (update rnd elapsedTime g).pipes,
      ∃ q ∈ (levelSpawn rnd (elapsedTime / 1000) (levelBird (elapsedTime / 1000) g)).pipes,
        p.x = q.x - 100 * (elapsedTime / 1000) ∧ p.y = q.y) ∧
    (∀ q ∈ (levelSpawn rnd (elapsedTime / 1000) (levelBird (elapsedTime / 1000) g)).pipes,
      (-200 : ℚ) ≤ q.x - 100 * (elapsedTime / 1000) →
        ({ x := q.x - 100 * (elapsedTime / 1000), y := q.y } : Pipe)
          ∈ (update rnd elapsedTime g).pipes) := by
  have hEq : (update rnd elapsedTime g).pipes
      = scrollThenFilter (elapsedTime / 1000)
          (levelSpawn rnd (elapsedTime / 1000) (levelBird (elapsedTime / 1000) g)).pipes := by
    rw [update_of_running rnd elapsedTime g h, ← pipeLoop_eq_scrollThenFilter]
    simp [runGameLevel, levelGround_pipes, levelJump_pipes, levelPipes]
  refine ⟨hEq, ?_, ?_, ?_⟩
  · intro p hp
    rw [hEq] at hp
    simp only [scrollThenFilter, List.mem_filter, List.mem_map, decide_eq_true_eq] at hp
    obtain ⟨-, hx⟩ := hp
    have hx2 : (-200 : ℚ) ≤ p.x := by simpa [PIPE_SCROLL_X_END] using hx
    refine ⟨?_, hx2⟩
    simp only [Pipe.isOffScreen, decide_eq_false_iff_not, not_lt]
    exact hx
  · intro p hp
    rw [hEq] at hp
    simp only [scrollThenFilter, List.mem_filter, List.mem_map, decide_eq_true_eq] at hp
    obtain ⟨⟨q, hq, rfl⟩, -⟩ := hp
    exact ⟨q, hq, by simp [PIPE_SCROLL_SPEED], rfl⟩
  · intro q hq hx
    rw [hEq]
    simp only [scrollThenFilter, List.mem_filter, List.mem_map, decide_eq_true_eq]
    refine ⟨⟨q, hq, by simp [PIPE_SCROLL_SPEED]⟩, ?_⟩
    simpa [PIPE_SCROLL_X_END] using hx

/-- C7, at a concrete frame: a new game and one frame of 100 ms. -/
theorem pipe_loop_is_scroll_then_filter_witness :
    (newGame 0 (init 0)).currentState = GameRunning ∧
    (update 0 100 (newGame 0 (init 0))).pipes
      = scrollThenFilter (100 / 1000)
          (levelSpawn 0 (100 / 1000) (levelBird (100 / 1000) (newGame 0 (init 0)))).pipes :=
  ⟨rfl, (pipe_loop_is_scroll_then_filter 0 100 (newGame 0 (init 0)) rfl).1⟩

/-- C8. Tap-to-start creates the first pipe immediately: `newGame` from any
state and any pipe list, and likewise a frame in state `GameMenu` with the
tap flag set, ends in state `GameRunning` with timer 0, the bird alive with
velocity 0 and position 0, and a pipe list of exactly one pipe, at
`x = PIPE_SCROLL_X_START = 200` and with vertical offset in `[-90, 90]`;
the previous pipes are gone. The value `rnd` of `MATH_RANDOM_MINUS1_1()` is
taken in `[-1, 1]`. -/
theorem newGame_starts_with_one_pipe (rnd elapsedTime : ℚ) (g g1 : GplayFlappyBird)
    (hlo : -1 ≤ rnd) (hhi : rnd ≤ 1)
    (hg1 : g1 = newGame rnd g ∨
      (g.currentState = GameMenu ∧ g.tapping = true ∧ g1 = update rnd elapsedTime g)) :
    g1.currentState = GameRunning ∧ g1.timer = 0 ∧
    g1.bird.isAlive = true ∧ g1.bird.velocity = 0 ∧ g1.bird.position = 0 ∧
    ∃ p : Pipe, g1.pipes = [p] ∧ p.x = 200 ∧ -90 ≤ p.y ∧ p.y ≤ 90 := by
  have key : ∀ s : GplayFlappyBird,
      (newGame rnd s).currentState = GameRunning ∧ (newGame rnd s).timer = 0 ∧
      (newGame rnd s).bird.isAlive = true ∧ (newGame rnd s).bird.velocity = 0 ∧
      (newGame rnd s).bird.position = 0 ∧
      ∃ p : Pipe, (newGame rnd s).pipes = [p] ∧ p.x = 200 ∧ -90 ≤ p.y ∧ p.y ≤ 90 := by
    intro s
    refine ⟨rfl, rfl, rfl, rfl, rfl, Pipe.create rnd, rfl, rfl, ?_, ?_⟩
    · simp only [Pipe.create, PIPE_HOLE_RANDOM_Y_OFFSET]; linarith
    · simp only [Pipe.create, PIPE_HOLE_RANDOM_Y_OFFSET]; linarith
  rcases hg1 with rfl | ⟨hm, ht, rfl⟩
  · exact key g
  · have hu : update rnd elapsedTime g = newGame rnd { g with menuEnabled := true } := by
      rw [update_of_menu rnd elapsedTime g hm]
      simp [runGameMenu, ht]
    rw [hu]
    exact key _

/-- C8, at a concrete frame: the first tap on the menu, with random value
`1/2`. -/
theorem newGame_starts_with_one_pipe_witness :
    ((-1 : ℚ) ≤ 1 / 2 ∧ (1 / 2 : ℚ) ≤ 1) ∧
    (touchEvent TouchEvent.TOUCH_PRESS (init 0)).currentState = GameMenu ∧
    (touchEvent TouchEvent.TOUCH_PRESS (init 0)).tapping = true ∧
    (update (1 / 2) 16 (touchEvent TouchEvent.TOUCH_PRESS (init 0))).currentState
      = GameRunning :=
  ⟨⟨by norm_num, by norm_num⟩, rfl, rfl,
    (newGame_starts_with_one_pipe (1 / 2) 16 (touchEvent TouchEvent.TOUCH_PRESS (init 0))
      (update (1 / 2) 16 (touchEvent TouchEvent.TOUCH_PRESS (init 0)))
      (by norm_num) (by norm_num) (Or.inr ⟨rfl, rfl, rfl⟩)).1⟩

/-- C2, refuted as stated: a restart does not lead back to the menu. In the
session in which the bird falls to the ground and 20 more frames (2 s) pass,
the game is in state `GameOver`; a tap and one more frame take it to
`GameRunning`, a change that is none of Menu->Running, Running->Over,
Over->Menu. -/
theorem restart_from_over_is_not_to_menu :
    ((init 0).run (fallingSession 27
        ++ [Callback.touchEvent TouchEvent.TOUCH_PRESS])).currentState = GameOver ∧
    (update 0 100 ((init 0).run (fallingSession 27
        ++ [Callback.touchEvent TouchEvent.TOUCH_PRESS]))).currentState = GameRunning ∧
    ¬ (∀ (rnd elapsedTime : ℚ) (g : GplayFlappyBird),
        (update rnd elapsedTime g).currentState = g.currentState ∨
        (g.currentState = GameMenu ∧
          (update rnd elapsedTime g).currentState = GameRunning) ∨
        (g.currentState = GameRunning ∧
          (update rnd elapsedTime g).currentState = GameOver) ∨
        (g.currentState = GameOver ∧
          (update rnd elapsedTime g).currentState = GameMenu)) := by
  have h1 : ((init 0).run (fallingSession 27
        ++ [Callback.touchEvent TouchEvent.TOUCH_PRESS])).currentState = GameOver := by
    decide!
  have h2 : (update 0 100 ((init 0).run (fallingSession 27
        ++ [Callback.touchEvent TouchEvent.TOUCH_PRESS]))).currentState = GameRunning := by
    decide!
  refine ⟨h1, h2, ?_⟩
  intro hall
  have h := hall 0 100 ((init 0).run (fallingSession 27
        ++ [Callback.touchEvent TouchEvent.TOUCH_PRESS]))
  rw [h1, h2] at h
  simp at h

/-- C2, amended: the state machine cycles Menu -> Running -> Over -> Running.
Every change of `_currentState` made by `update` (any game, any frame, any
tap flag, any elapsed time) or by `collisionEvent` is one of Menu->Running,
Running->Over, Over->Running; in particular a restart from `GameOver` leads
straight to `GameRunning`. For `collisionEvent` the game is any game the
engine's calls produce from the initial one, and a collision with a pipe is
reported only while the pipe list holds a pipe. -/
theorem state_changes_menu_running_over_running (rnd elapsedTime timer0 : ℚ)
    (g : GplayFlappyBird) (calls : List Callback)
    (type : EventType) (objectB : Option CollisionObject)
    (hpipe : (∃ b, objectB = some b ∧ b.userObject = some E_ENTITY_TYPE.TYPE_PIPE) →
      ((init timer0).run calls).pipes ≠ []) :
    ((update rnd elapsedTime g).currentState = g.currentState ∨
      (g.currentState = GameMenu ∧
        (update rnd elapsedTime g).currentState = GameRunning) ∨
      (g.currentState = GameRunning ∧
        (update rnd elapsedTime g).currentState = GameOver) ∨
      (g.currentState = GameOver ∧
        (update rnd elapsedTime g).currentState = GameRunning)) ∧
    ((collisionEvent type objectB ((init timer0).run calls)).currentState
        = ((init timer0).run calls).currentState ∨
      (((init timer0).run calls).currentState = GameMenu ∧
        (collisionEvent type objectB ((init timer0).run calls)).currentState
          = GameRunning) ∨
      (((init timer0).run calls).currentState = GameRunning ∧
        (collisionEvent type objectB ((init timer0).run calls)).currentState
          = GameOver) ∨
      (((init timer0).run calls).currentState = GameOver ∧
        (collisionEvent type objectB ((init timer0).run calls)).currentState
          = GameRunning)) := by
  constructor
  · rcases update_state_cases rnd elapsedTime g with ⟨h, -⟩ | h | h | h
    · exact Or.inl h
    · exact Or.inr (Or.inl h)
    · exact Or.inr (Or.inr (Or.inl h))
    · exact Or.inr (Or.inr (Or.inr h))
  · rcases collisionEvent_cases type objectB ((init timer0).run calls) with hid | ⟨hb, hgo⟩
    · left; rw [hid]
    · have hne := hpipe hb
      rw [hgo]
      cases hs : ((init timer0).run calls).currentState with
      | GameMenu =>
        exact absurd (menu_no_pipes_run calls (init timer0) (fun _ => rfl) hs) hne
      | GameRunning => right; right; left; exact ⟨rfl, rfl⟩
      | GameOver => left; rfl

/-- C2 amended, at a concrete session: three frames into the game a pipe
exists, the game is running, and a collision with a pipe ends it. -/
theorem state_changes_menu_running_over_running_witness :
    ((init 0).run (fallingSession 3)).pipes ≠ [] ∧
    ((init 0).run (fallingSession 3)).currentState = GameRunning ∧
    (collisionEvent EventType.COLLIDING (some ⟨some E_ENTITY_TYPE.TYPE_PIPE⟩)
      ((init 0).run (fallingSession 3))).currentState = GameOver ∧
    ((collisionEvent EventType.COLLIDING (some ⟨some E_ENTITY_TYPE.TYPE_PIPE⟩)
        ((init 0).run (fallingSession 3))).currentState
        = ((init 0).run (fallingSession 3)).currentState ∨
      (((init 0).run (fallingSession 3)).currentState = GameMenu ∧
        (collisionEvent EventType.COLLIDING (some ⟨some E_ENTITY_TYPE.TYPE_PIPE⟩)
          ((init 0).run (fallingSession 3))).currentState = GameRunning) ∨
      (((init 0).run (fallingSession 3)).currentState = GameRunning ∧
        (collisionEvent EventType.COLLIDING (some ⟨some E_ENTITY_TYPE.TYPE_PIPE⟩)
          ((init 0).run (fallingSession 3))).currentState = GameOver) ∨
      (((init 0).run (fallingSession 3)).currentState = GameOver ∧
        (collisionEvent EventType.COLLIDING (some ⟨some E_ENTITY_TYPE.TYPE_PIPE⟩)
          ((init 0).run (fallingSession 3))).currentState = GameRunning)) :=
  ⟨by decide!, by decide!, by decide!,
    (state_changes_menu_running_over_running 0 100 0 (init 0) (fallingSession 3)
      EventType.COLLIDING (some ⟨some E_ENTITY_TYPE.TYPE_PIPE⟩) (fun _ => by decide!)).2⟩

/-- C3, the code at the failing session: the bird falls to the ground in the
7th frame of the game (0.7 s, so `_timer` is 0.7 when the game ends); with
the finger down again, the game is still over after 12 more frames, and the
13th restarts it, 1.3 s after the game ended. -/
theorem restart_possible_before_two_seconds :
    ((init 0).run (fallingSession 6)).currentState = GameRunning ∧
    ((init 0).run (fallingSession 7)).currentState = GameOver ∧
    ((init 0).run (fallingSession 7)).timer = 7 / 10 ∧
    ((init 0).run (fallingSession 7 ++ [Callback.touchEvent TouchEvent.TOUCH_PRESS]
        ++ List.replicate 12 (Callback.update 0 100))).currentState = GameOver ∧
    ((init 0).run (fallingSession 7 ++ [Callback.touchEvent TouchEvent.TOUCH_PRESS]
        ++ List.replicate 13 (Callback.update 0 100))).currentState = GameRunning ∧
    (13 * (100 / 1000) : ℚ) < 2 := by
  refine ⟨by decide!, by decide!, by decide!, by decide!, by decide!, by norm_num⟩

/-- C10. A tap is consumed only by a frame in state `GameRunning`. After
every such frame the tap flag is false, so in the next frame, when no touch
event came in between, the jump step changes nothing: of two consecutive
running frames at most the first jumps on the tap. `newGame`, a menu frame
and a game-over frame leave the flag as it is. So, with no touch event in
between, the tap that starts the game from the menu, or restarts it from
game over, is still set in the first running frame and makes the bird jump
there: the velocity is `JUMP_VELOCITY = 245` after that frame's jump step
and at the end of that frame. -/
theorem tap_consumed_only_by_running_frame (rnd rnd2 elapsedTime elapsedTime2 : ℚ)
    (g : GplayFlappyBird) :
    (g.currentState = GameRunning →
      (update rnd elapsedTime g).tapping = false ∧
      levelJump (levelPipes (elapsedTime2 / 1000) (levelSpawn rnd2 (elapsedTime2 / 1000)
          (levelBird (elapsedTime2 / 1000) (update rnd elapsedTime g))))
        = levelPipes (elapsedTime2 / 1000) (levelSpawn rnd2 (elapsedTime2 / 1000)
          (levelBird (elapsedTime2 / 1000) (update rnd elapsedTime g)))) ∧
    (newGame rnd g).tapping = g.tapping ∧
    (g.currentState = GameMenu → (update rnd elapsedTime g).tapping = g.tapping) ∧
    (g.currentState = GameOver → (update rnd elapsedTime g).tapping = g.tapping) ∧
    (g.tapping = true →
      (g.currentState = GameMenu ∨
        (g.currentState = GameOver ∧ ¬ (g.timer + elapsedTime / 1000 < 2))) →
      (update rnd elapsedTime g).currentState = GameRunning ∧
      (update rnd elapsedTime g).tapping = true ∧
      (levelJump (levelPipes (elapsedTime2 / 1000) (levelSpawn rnd2 (elapsedTime2 / 1000)
          (levelBird (elapsedTime2 / 1000) (update rnd elapsedTime g))))).bird.velocity
        = JUMP_VELOCITY ∧
      (update rnd2 elapsedTime2 (update rnd elapsedTime g)).bird.velocity = JUMP_VELOCITY ∧
      JUMP_VELOCITY = 245) := by
  refine ⟨?_, rfl, ?_, ?_, ?_⟩
  · intro hs
    have ht : (update rnd elapsedTime g).tapping = false := by
      rw [update_of_running rnd elapsedTime g hs]
      exact runGameLevel_tapping _ _ _
    refine ⟨ht, ?_⟩
    have ht2 : (levelPipes (elapsedTime2 / 1000) (levelSpawn rnd2 (elapsedTime2 / 1000)
          (levelBird (elapsedTime2 / 1000) (update rnd elapsedTime g)))).tapping = false := by
      simp [levelPipes, levelSpawn_tapping, levelBird, ht]
    simp [levelJump, ht2]
  · intro hs
    rw [update_of_menu rnd elapsedTime g hs]
    exact runGameMenu_tapping _ _
  · intro hs
    rw [update_of_over rnd elapsedTime g hs]
    exact runGameOver_tapping _ _ _
  · intro ht hstart
    have hnew : (update rnd elapsedTime g).currentState = GameRunning ∧
        (update rnd elapsedTime g).tapping = true ∧
        (update rnd elapsedTime g).bird.isAlive = true := by
      rcases hstart with hm | ⟨ho, hlt⟩
      · rw [update_of_menu rnd elapsedTime g hm]
        simp [runGameMenu, ht, newGame_eq, Bird.restart]
      · rw [update_of_over rnd elapsedTime g ho]
        simp [runGameOver, hlt, ht, newGame_eq, Bird.restart]
    obtain ⟨h1, h2, h3⟩ := hnew
    have hj : (levelJump (levelPipes (elapsedTime2 / 1000)
        (levelSpawn rnd2 (elapsedTime2 / 1000)
          (levelBird (elapsedTime2 / 1000) (update rnd elapsedTime g))))).bird.velocity
        = JUMP_VELOCITY := by
      apply levelJump_of_tapping
      · simp [levelPipes, levelSpawn_tapping, levelBird, h2]
      · simp [levelPipes, levelSpawn_bird, levelBird, Bird.update, h3]
    refine ⟨h1, h2, hj, ?_, rfl⟩
    rw [update_of_running rnd2 elapsedTime2 _ h1]
    unfold runGameLevel
    exact levelGround_velocity _ hj

/-- C10, at a concrete session: the tap on the initial menu, then two
frames of 100 ms with no touch event in between. -/
theorem tap_consumed_only_by_running_frame_witness :
    (touchEvent TouchEvent.TOUCH_PRESS (init 0)).tapping = true ∧
    (touchEvent TouchEvent.TOUCH_PRESS (init 0)).currentState = GameMenu ∧
    (update 0 100 (update 0 100
      (touchEvent TouchEvent.TOUCH_PRESS (init 0)))).bird.velocity = JUMP_VELOCITY ∧
    (update 0 100 (touchEvent TouchEvent.TOUCH_PRESS (init 0))).currentState
      = GameRunning ∧
    (update 0 100 (update 0 100
      (touchEvent TouchEvent.TOUCH_PRESS (init 0)))).tapping = false :=
  ⟨rfl, rfl,
    ((tap_consumed_only_by_running_frame 0 0 100 100
      (touchEvent TouchEvent.TOUCH_PRESS (init 0))).2.2.2.2 rfl (Or.inl rfl)).2.2.2.1,
    ((tap_consumed_only_by_running_frame 0 0 100 100
      (touchEvent TouchEvent.TOUCH_PRESS (init 0))).2.2.2.2 rfl (Or.inl rfl)).1,
    ((tap_consumed_only_by_running_frame 0 0 100 100
      (update 0 100 (touchEvent TouchEvent.TOUCH_PRESS (init 0)))).1
      ((tap_consumed_only_by_running_frame 0 0 100 100
        (touchEvent TouchEvent.TOUCH_PRESS (init 0))).2.2.2.2 rfl (Or.inl rfl)).1).1⟩

/-- C9. Bounded pipe population: in every run that starts with `newGame` and
then processes any sequence of engine calls whose frames have non-negative
elapsed times (in particular any sequence of frames in state `GameRunning`),
the pipe list holds at most 3 pipes after every call, and its pipes are in
order of creation with `x` non-decreasing from front to back; so the pipes a
running frame removes are a front segment of the list: the list after the
frame is the moved entry list with its first `k` pipes dropped. -/
theorem pipe_population_at_most_three (rnd0 : ℚ) (g0 : GplayFlappyBird)
    (calls : List Callback)
    (hdt : ∀ rnd e, Callback.update rnd e ∈ calls → 0 ≤ e) :
    ((newGame rnd0 g0).run calls).pipes.length ≤ 3 ∧
    ((newGame rnd0 g0).run calls).pipes.Pairwise (fun p q => p.x ≤ q.x) ∧
    (∀ rnd e : ℚ, 0 ≤ e → ((newGame rnd0 g0).run calls).currentState = GameRunning →
      ∃ k, (update rnd e ((newGame rnd0 g0).run calls)).pipes
        = List.drop k
            ((levelSpawn rnd (e / 1000)
              (levelBird (e / 1000) ((newGame rnd0 g0).run calls))).pipes.map
                (Pipe.update (e / 1000)))) := by
  have hinv := pipesInv_run calls (newGame rnd0 g0) (pipesInv_newGame rnd0 g0) hdt
  obtain ⟨hlen, hsorted, hrun⟩ := hinv
  refine ⟨hlen, hsorted, ?_⟩
  intro rnd e _ hs
  obtain ⟨htm, hsp, -⟩ := hrun hs
  rw [update_of_running rnd e _ hs, runGameLevel_pipes, pipeLoop_eq_filter_map_update,
    levelSpawn_pipes]
  apply filter_sorted_eq_drop
  apply List.Pairwise.map _ _ (entry_sorted rnd _ (e / 1000) _ hsp htm hsorted)
  intro a b hab
  simp only [Pipe.update]
  linarith

/-- C9, at a concrete session: a new game and 34 frames of 100 ms with a tap
before each; the bound 3 is reached there. -/
theorem pipe_population_at_most_three_witness :
    (∀ rnd e, Callback.update rnd e ∈ tappingSession 34 → 0 ≤ e) ∧
    ((newGame 0 (init 0)).run (tappingSession 34)).pipes.length ≤ 3 ∧
    ((newGame 0 (init 0)).run (tappingSession 34)).pipes.length = 3 ∧
    ((newGame 0 (init 0)).run (tappingSession 34)).currentState = GameRunning :=
  ⟨tappingSession_elapsed 34,
    (pipe_population_at_most_three 0 (init 0) (tappingSession 34)
      (tappingSession_elapsed 34)).1,
    by decide!, by decide!⟩
